import Mathlib

/-!
Verification of the validation and CRUD behavior of the Flask blog backend in
`server/models.py`. The Python models (`Author`, `Post`), their per-field
validators, and the route handlers are shallowly embedded as Lean functions;
the claims about them are settled as theorems below the definitions.

Conventions of the embedding:
- A SQLAlchemy session with committed rows is a Lean list of records plus an
  autoincrement counter (`AuthorsState`, `PostsState`).
- A Python function that may raise `ValueError` becomes `Except String α`,
  the error carrying the exception message.
- Nullable columns and possibly-absent JSON keys become `Option String`;
  Python truthiness of such a value (`if phone_number:`) is "not `none` and
  not the empty string".
- Python `str.isdigit` and `in` (substring) are modelled over the string's
  character list; `isdigit` is modelled for ASCII text, which is the alphabet
  the repository's phone numbers use.
-/

set_option maxRecDepth 8000

deriving instance DecidableEq for Except

/-- Python `s.isdigit()` modelled for ASCII strings: true iff the string is
nonempty and every character is a decimal digit. -/
def pyIsDigit (s : String) : Bool :=
  !s.data.isEmpty && s.data.all Char.isDigit

/-- Boolean test that `l` begins with the pattern `pat`, character by
character; used to model Python's substring operator. -/
def startsWithChars : List Char → List Char → Bool
  | [], _ => true
  | _ :: _, [] => false
  | a :: as, b :: bs => a == b && startsWithChars as bs

/-- Python's `sub in s` on strings: `sub` occurs contiguously somewhere
in `s`. -/
def pyIn (sub s : String) : Bool :=
  (List.range (s.data.length + 1)).any fun i => startsWithChars sub.data (s.data.drop i)

/-- Row of the `authors` table: integer primary key, required unique `name`,
nullable `phone_number`. The timestamp columns carry no validated content and
are omitted. -/
structure Author where
  id : Nat
  name : String
  phone_number : Option String
  deriving DecidableEq

/-- Translation of `Author.query.filter_by(name=name).first()`: the first
persisted author whose name equals `n`, if any. -/
def Author.query_filter_by_name (store : List Author) (n : String) : Option Author :=
  (store.filter fun a => a.name == n).head?

/-- Translation of `Author.validate_name`: reject a falsy name
(`if not name`), then reject a name some persisted author already has
(`Author.query.filter_by(name=name).first() is not None`), else return the
name unchanged. -/
def Author.validate_name (store : List Author) : Option String → Except String String
  | none => Except.error "Name field is required."
  | some n =>
    if n = "" then Except.error "Name field is required."
    else if (Author.query_filter_by_name store n).isSome then
      Except.error "Name must be unique."
    else Except.ok n

/-- Translation of `Author.validate_phone_number`:
`if phone_number and (len(phone_number) != 10 or not phone_number.isdigit())`
raises, else the value is returned unchanged. -/
def Author.validate_phone_number : Option String → Except String (Option String)
  | none => Except.ok none
  | some p =>
    if p ≠ "" ∧ (p.length ≠ 10 ∨ ¬ pyIsDigit p) then
      Except.error "Phone number must be 10 digits."
    else Except.ok (some p)

/-- Committed `authors` table plus the autoincrement counter for the next
primary key. -/
structure AuthorsState where
  authors : List Author
  next_id : Nat
  deriving DecidableEq

/-- Translation of the `POST /authors` handler: construct
`Author(name=..., phone_number=...)` (running both validators against the
committed store), then `db.session.add` and `db.session.commit`, which
assigns the next id. A raised `ValueError` aborts before anything is added. -/
def create_author (st : AuthorsState) (name phone_number : Option String) :
    Except String (AuthorsState × Author) :=
  match Author.validate_name st.authors name with
  | Except.error e => Except.error e
  | Except.ok n =>
    match Author.validate_phone_number phone_number with
    | Except.error e => Except.error e
    | Except.ok p =>
      Except.ok
        ({ authors := st.authors ++ [⟨st.next_id, n, p⟩], next_id := st.next_id + 1 },
          ⟨st.next_id, n, p⟩)

/-- Row of the `posts` table: integer primary key, required `title`, nullable
`content` and `summary`, and `category`, which every reachable row has as a
validated string. Timestamps are omitted as above. -/
structure Post where
  id : Nat
  title : String
  content : Option String
  category : String
  summary : Option String
  deriving DecidableEq

/-- The fixed clickbait phrase list of `Post.validate_title`. -/
def clickbait : List String := ["Won't Believe", "Secret", "Top", "Guess"]

/-- Translation of `Post.validate_title`: reject a falsy title, then reject a
title containing none of the clickbait phrases
(`not any(substring in title for substring in clickbait)`), else return it
unchanged. -/
def Post.validate_title : Option String → Except String String
  | none => Except.error "Title field is required."
  | some t =>
    if t = "" then Except.error "Title field is required."
    else if !(clickbait.any fun s => pyIn s t) then
      Except.error "Title must contain clickbait phrases."
    else Except.ok t

/-- Translation of `Post.validate_content`:
`if content and len(content) < 250` raises, else the value is returned
unchanged. -/
def Post.validate_content : Option String → Except String (Option String)
  | none => Except.ok none
  | some c =>
    if c ≠ "" ∧ c.length < 250 then
      Except.error "Post content must be at least 250 characters long."
    else Except.ok (some c)

/-- Translation of `Post.validate_summary`:
`if summary and len(summary) > 250` raises, else the value is returned
unchanged. -/
def Post.validate_summary : Option String → Except String (Option String)
  | none => Except.ok none
  | some s =>
    if s ≠ "" ∧ 250 < s.length then
      Except.error "Post summary must be at most 250 characters long."
    else Except.ok (some s)

/-- Translation of `Post.validate_category`:
`if category not in ['Fiction', 'Non-Fiction']` raises — unconditionally, so
an absent (`None`) category raises as well — else the value is returned
unchanged. -/
def Post.validate_category : Option String → Except String String
  | none => Except.error "Category must be 'Fiction' or 'Non-Fiction'."
  | some c =>
    if c = "Fiction" ∨ c = "Non-Fiction" then Except.ok c
    else Except.error "Category must be 'Fiction' or 'Non-Fiction'."

/-- Committed `posts` table plus the autoincrement counter for the next
primary key. -/
structure PostsState where
  posts : List Post
  next_id : Nat
  deriving DecidableEq

/-- JSON body of the `POST /posts` request: `data['title']` (a missing key is
out of scope here) and the `data.get(...)` fields, each possibly absent. -/
structure PostData where
  title : Option String
  content : Option String
  category : Option String
  summary : Option String
  deriving DecidableEq

/-- Body of an HTTP response: a serialized post, an error object
`{'error': msg}`, or the empty body. -/
inductive HttpBody where
  | json_post : Post → HttpBody
  | json_error : String → HttpBody
  | empty : HttpBody
  deriving DecidableEq

/-- HTTP response: status code and body. -/
structure HttpResponse where
  status : Nat
  body : HttpBody
  deriving DecidableEq

/-- Translation of the `POST /posts` handler: construct
`Post(title=..., content=..., category=..., summary=...)`, running the four
validators in keyword order, then `db.session.add` and `db.session.commit`,
which assigns the next id. -/
def create_post (st : PostsState) (d : PostData) : Except String (PostsState × Post) :=
  match Post.validate_title d.title with
  | Except.error e => Except.error e
  | Except.ok t =>
    match Post.validate_content d.content with
    | Except.error e => Except.error e
    | Except.ok c =>
      match Post.validate_category d.category with
      | Except.error e => Except.error e
      | Except.ok cat =>
        match Post.validate_summary d.summary with
        | Except.error e => Except.error e
        | Except.ok s =>
          Except.ok
            ({ posts := st.posts ++ [⟨st.next_id, t, c, cat, s⟩], next_id := st.next_id + 1 },
              ⟨st.next_id, t, c, cat, s⟩)

/-- Translation of `Post.query.get(id)`: the persisted post with primary key
`i`, if any. -/
def Post.query_get (posts : List Post) (i : Nat) : Option Post :=
  (posts.filter fun p => p.id == i).head?

/-- Translation of the `GET /posts/<id>` handler: 404 with
`{'error': 'Post not found'}` on a miss, else 200 with the post's JSON. -/
def get_post (st : PostsState) (i : Nat) : HttpResponse :=
  match Post.query_get st.posts i with
  | none => { status := 404, body := HttpBody.json_error "Post not found" }
  | some p => { status := 200, body := HttpBody.json_post p }

/-- One `key: value` pair of a PATCH body, restricted to the model's mutable
columns; `setattr(post, key, value)` routes the value through the column's
validator. -/
inductive PatchField where
  | title (v : Option String)
  | content (v : Option String)
  | category (v : Option String)
  | summary (v : Option String)
  deriving DecidableEq

/-- Translation of one `setattr(post, key, value)` in the PATCH loop: the
field's validator runs on the incoming value and, on success, the attribute
is overwritten. -/
def set_post_attr (p : Post) : PatchField → Except String Post
  | PatchField.title v =>
    match Post.validate_title v with
    | Except.error e => Except.error e
    | Except.ok t => Except.ok { p with title := t }
  | PatchField.content v =>
    match Post.validate_content v with
    | Except.error e => Except.error e
    | Except.ok c => Except.ok { p with content := c }
  | PatchField.category v =>
    match Post.validate_category v with
    | Except.error e => Except.error e
    | Except.ok c => Except.ok { p with category := c }
  | PatchField.summary v =>
    match Post.validate_summary v with
    | Except.error e => Except.error e
    | Except.ok s => Except.ok { p with summary := s }

/-- Translation of the `PATCH /posts/<id>` handler: 404 with
`{'error': 'Post not found'}` on a miss; otherwise each pair of the JSON body
is applied with `setattr` (validators may raise, which propagates), the
session commits, and the updated post is returned with 200. -/
def update_post (st : PostsState) (i : Nat) (data : List PatchField) :
    Except String (PostsState × HttpResponse) :=
  match Post.query_get st.posts i with
  | none => Except.ok (st, { status := 404, body := HttpBody.json_error "Post not found" })
  | some p =>
    match data.foldlM set_post_attr p with
    | Except.error e => Except.error e
    | Except.ok q =>
      Except.ok
        ({ st with posts := st.posts.map fun r => if r.id == i then q else r },
          { status := 200, body := HttpBody.json_post q })

/-- Translation of the `DELETE /posts/<id>` handler: on a miss, return 204
with an empty body and leave the session untouched; on a hit, delete the row
and commit, and likewise return 204 with an empty body. -/
def delete_post (st : PostsState) (i : Nat) : PostsState × HttpResponse :=
  match Post.query_get st.posts i with
  | none => (st, { status := 204, body := HttpBody.empty })
  | some _ =>
    ({ st with posts := st.posts.filter fun q => !(q.id == i) },
      { status := 204, body := HttpBody.empty })

/-! Helper lemmas about the embedding, shared by the claim theorems. -/

/-- Characterization of `startsWithChars` as list-append decomposition. -/
theorem startsWithChars_iff (pat l : List Char) :
    startsWithChars pat l = true ↔ ∃ t, l = pat ++ t := by
  induction pat generalizing l with
  | nil => simp [startsWithChars]
  | cons a as ih =>
    cases l with
    | nil => simp [startsWithChars]
    | cons b bs =>
      simp only [startsWithChars, Bool.and_eq_true, beq_iff_eq, ih, List.cons_append,
        List.cons.injEq]
      constructor
      · rintro ⟨rfl, t, rfl⟩; exact ⟨t, rfl, rfl⟩
      · rintro ⟨t, rfl, rfl⟩; exact ⟨rfl, t, rfl⟩

/-- Python's substring operator agrees with contiguous-sublist containment of
the character lists. -/
theorem pyIn_iff (sub s : String) : pyIn sub s = true ↔ sub.data <:+: s.data := by
  unfold pyIn
  rw [List.any_eq_true]
  constructor
  · rintro ⟨i, _, hs⟩
    rw [startsWithChars_iff] at hs
    obtain ⟨t, ht⟩ := hs
    exact ⟨s.data.take i, t, by rw [List.append_assoc, ← ht, List.take_append_drop]⟩
  · rintro ⟨u, t, h⟩
    refine ⟨u.length, ?_, ?_⟩
    · rw [List.mem_range, Nat.lt_succ_iff, ← h]
      simp
    · rw [startsWithChars_iff]
      refine ⟨t, ?_⟩
      rw [← h, List.append_assoc, List.drop_left]

/-- A string differs from `""` exactly when its character list is nonempty. -/
theorem str_ne_empty_iff (s : String) : s ≠ "" ↔ s.data ≠ [] := by
  cases s with
  | mk d => simp [String.ext_iff]

/-- The name lookup succeeds exactly when some persisted author has the
name. -/
theorem query_filter_by_name_isSome_iff (S : List Author) (n : String) :
    (Author.query_filter_by_name S n).isSome = true ↔ ∃ a ∈ S, a.name = n := by
  unfold Author.query_filter_by_name
  rw [Option.isSome_iff_ne_none, ne_eq, List.head?_eq_none_iff, List.filter_eq_nil_iff]
  simp

/-- Assigning a nonempty name that some persisted author already has raises
the uniqueness error. -/
theorem validate_name_dup (S : List Author) (n : String) (hn : n ≠ "")
    (hdup : ∃ a ∈ S, a.name = n) :
    Author.validate_name S (some n) = Except.error "Name must be unique." := by
  have hq : (Author.query_filter_by_name S n).isSome = true :=
    (query_filter_by_name_isSome_iff S n).mpr hdup
  simp [Author.validate_name, hn, hq]

/-- Inversion of a successful name validation: the input was the returned
name, it is nonempty, and no persisted author had it. -/
theorem validate_name_ok (S : List Author) (nm : Option String) (n : String)
    (h : Author.validate_name S nm = Except.ok n) :
    nm = some n ∧ n ≠ "" ∧ ∀ a ∈ S, a.name ≠ n := by
  cases nm with
  | none => simp [Author.validate_name] at h
  | some m =>
    by_cases hm : m = ""
    · simp [Author.validate_name, hm] at h
    · by_cases hq : (Author.query_filter_by_name S m).isSome = true
      · simp [Author.validate_name, hm, hq] at h
      · simp [Author.validate_name, hm, hq] at h
        subst h
        refine ⟨rfl, hm, fun a ha hn => ?_⟩
        exact hq ((query_filter_by_name_isSome_iff S m).mpr ⟨a, ha, hn⟩)

/-- Inversion of a successful author creation: both validators passed, the id
is the autoincrement value, and the new row is appended. -/
theorem create_author_ok (st : AuthorsState) (nm ph : Option String)
    (st' : AuthorsState) (a : Author)
    (h : create_author st nm ph = Except.ok (st', a)) :
    Author.validate_name st.authors nm = Except.ok a.name
    ∧ Author.validate_phone_number ph = Except.ok a.phone_number
    ∧ a.id = st.next_id
    ∧ st'.authors = st.authors ++ [a]
    ∧ st'.next_id = st.next_id + 1 := by
  unfold create_author at h
  split at h
  · exact Except.noConfusion h
  rename_i n hn
  split at h
  · exact Except.noConfusion h
  rename_i p hp
  simp only [Except.ok.injEq, Prod.mk.injEq] at h
  obtain ⟨h1, h2⟩ := h
  subst h2
  subst h1
  exact ⟨hn, hp, rfl, rfl, rfl⟩

/-- Inversion of a successful title validation: the input was the returned
title. -/
theorem validate_title_ok (tv : Option String) (t : String)
    (h : Post.validate_title tv = Except.ok t) : tv = some t := by
  cases tv with
  | none => simp [Post.validate_title] at h
  | some m =>
    by_cases hm : m = ""
    · simp [Post.validate_title, hm] at h
    · by_cases hc : (clickbait.any fun s => pyIn s m) = true
      · simp [Post.validate_title, hm, hc] at h
        rw [h]
      · simp [Post.validate_title, hm, hc] at h

/-- Inversion of a successful content validation: the value is returned
unchanged. -/
theorem validate_content_ok (cv c : Option String)
    (h : Post.validate_content cv = Except.ok c) : c = cv := by
  cases cv with
  | none =>
    simp [Post.validate_content] at h
    rw [h]
  | some m =>
    by_cases hm : m ≠ "" ∧ m.length < 250
    · simp [Post.validate_content, hm] at h
    · simp [Post.validate_content, hm] at h
      rw [h]

/-- Inversion of a successful category validation: the input was the returned
category. -/
theorem validate_category_ok (cv : Option String) (c : String)
    (h : Post.validate_category cv = Except.ok c) : cv = some c := by
  cases cv with
  | none => simp [Post.validate_category] at h
  | some m =>
    by_cases hm : m = "Fiction" ∨ m = "Non-Fiction"
    · simp [Post.validate_category, hm] at h
      rw [h]
    · simp [Post.validate_category, hm] at h

/-- Inversion of a successful summary validation: the value is returned
unchanged. -/
theorem validate_summary_ok (sv s : Option String)
    (h : Post.validate_summary sv = Except.ok s) : s = sv := by
  cases sv with
  | none =>
    simp [Post.validate_summary] at h
    rw [h]
  | some m =>
    by_cases hm : m ≠ "" ∧ 250 < m.length
    · simp [Post.validate_summary, hm] at h
    · simp [Post.validate_summary, hm] at h
      rw [h]

/-- Inversion of a successful post creation: all four validators passed, the
id is the autoincrement value, and the new row is appended. -/
theorem create_post_ok (st : PostsState) (d : PostData) (st' : PostsState) (p : Post)
    (h : create_post st d = Except.ok (st', p)) :
    Post.validate_title d.title = Except.ok p.title
    ∧ Post.validate_content d.content = Except.ok p.content
    ∧ Post.validate_category d.category = Except.ok p.category
    ∧ Post.validate_summary d.summary = Except.ok p.summary
    ∧ p.id = st.next_id
    ∧ st'.posts = st.posts ++ [p]
    ∧ st'.next_id = st.next_id + 1 := by
  unfold create_post at h
  split at h
  · exact Except.noConfusion h
  rename_i t ht
  split at h
  · exact Except.noConfusion h
  rename_i c hc
  split at h
  · exact Except.noConfusion h
  rename_i cat hcat
  split at h
  · exact Except.noConfusion h
  rename_i s hs
  simp only [Except.ok.injEq, Prod.mk.injEq] at h
  obtain ⟨h1, h2⟩ := h
  subst h2
  subst h1
  exact ⟨ht, hc, hcat, hs, rfl, rfl, rfl⟩

/-- The primary-key lookup misses exactly when no persisted post has the
id. -/
theorem query_get_eq_none_iff (l : List Post) (i : Nat) :
    Post.query_get l i = none ↔ ∀ q ∈ l, q.id ≠ i := by
  unfold Post.query_get
  rw [List.head?_eq_none_iff, List.filter_eq_nil_iff]
  simp

/-- Appending a post whose id is fresh for `l` makes the lookup of that id
return it. -/
theorem query_get_append_fresh (l : List Post) (p : Post)
    (hfresh : ∀ q ∈ l, q.id ≠ p.id) :
    Post.query_get (l ++ [p]) p.id = some p := by
  unfold Post.query_get
  rw [List.filter_append]
  have h1 : (l.filter fun q => q.id == p.id) = [] := by
    rw [List.filter_eq_nil_iff]
    intro a ha
    simpa using hfresh a ha
  rw [h1]
  simp

/-- The clickbait scan succeeds exactly when some phrase of the list occurs
in the title. -/
theorem clickbait_any_iff (t : String) :
    (clickbait.any fun s => pyIn s t) = true ↔ ∃ p ∈ clickbait, p.data <:+: t.data := by
  rw [List.any_eq_true]
  constructor
  · rintro ⟨p, hp, hpy⟩
    exact ⟨p, hp, (pyIn_iff p t).mp hpy⟩
  · rintro ⟨p, hp, hoc⟩
    exact ⟨p, hp, (pyIn_iff p t).mpr hoc⟩

/-! Claim theorems. -/

/-- C1: every attempt to create an author whose name equals the name of an
author currently in the store fails (the name validator raises) and adds no
row, so `Author.name` stays globally unique across creations; the name
validator also fails on an empty (and on an absent) name. -/
theorem create_author_duplicate_name_fails (st : AuthorsState) (n : String)
    (ph : Option String) (hdup : ∃ a ∈ st.authors, a.name = n) :
    (∃ msg, create_author st (some n) ph = Except.error msg)
    ∧ (∀ st' a, create_author st (some n) ph ≠ Except.ok (st', a))
    ∧ Author.validate_name st.authors (some "") = Except.error "Name field is required."
    ∧ Author.validate_name st.authors none = Except.error "Name field is required."
    ∧ ∀ (nm phn : Option String) (st' : AuthorsState) (a : Author),
        st.authors.Pairwise (fun x y => x.name ≠ y.name) →
        create_author st nm phn = Except.ok (st', a) →
        st'.authors.Pairwise (fun x y => x.name ≠ y.name) := by
  have herr : ∃ msg, Author.validate_name st.authors (some n) = Except.error msg := by
    by_cases hn : n = ""
    · exact ⟨"Name field is required.", by simp [Author.validate_name, hn]⟩
    · exact ⟨"Name must be unique.", validate_name_dup st.authors n hn hdup⟩
  obtain ⟨msg, hmsg⟩ := herr
  have hcreate : create_author st (some n) ph = Except.error msg := by
    unfold create_author
    rw [hmsg]
  refine ⟨⟨msg, hcreate⟩, ?_, by simp [Author.validate_name], rfl, ?_⟩
  · intro st' a h
    rw [hcreate] at h
    exact Except.noConfusion h
  · intro nm phn st' a hpw h
    obtain ⟨hn, -, -, hrows, -⟩ := create_author_ok st nm phn st' a h
    obtain ⟨-, -, hfresh⟩ := validate_name_ok st.authors nm a.name hn
    rw [hrows, List.pairwise_append]
    refine ⟨hpw, by simp, ?_⟩
    intro x hx y hy
    rw [List.mem_singleton] at hy
    subst hy
    exact hfresh x hx

/-- C1 witness: with an author named "Alice" persisted, creating another
"Alice" fails. -/
theorem create_author_duplicate_name_fails_witness :
    ∃ msg, create_author ⟨[⟨1, "Alice", none⟩], 2⟩ (some "Alice") none = Except.error msg :=
  (create_author_duplicate_name_fails ⟨[⟨1, "Alice", none⟩], 2⟩ "Alice" none
    ⟨⟨1, "Alice", none⟩, by simp, rfl⟩).1

/-- C2 counterexample: the empty string does not consist of exactly 10 digit
characters, yet assigning it to `Author.phone_number` is accepted, because
the validator's guard `if phone_number and ...` skips falsy values. -/
theorem validate_phone_number_empty_string_accepted :
    Author.validate_phone_number (some "") = Except.ok (some "")
    ∧ ("" : String).length ≠ 10 := by
  refine ⟨?_, by decide⟩
  simp [Author.validate_phone_number]

/-- C2 amended: a non-empty string assigned to `Author.phone_number` is
accepted iff it consists of exactly 10 digit characters, and otherwise is
rejected with the `ValueError` message; absent (null) phone numbers and the
empty string are accepted. -/
theorem validate_phone_number_spec (p : String) (hp : p ≠ "") :
    (Author.validate_phone_number (some p) = Except.ok (some p) ↔
      p.length = 10 ∧ ∀ c ∈ p.data, c.isDigit)
    ∧ (¬(p.length = 10 ∧ ∀ c ∈ p.data, c.isDigit) →
      Author.validate_phone_number (some p) = Except.error "Phone number must be 10 digits.")
    ∧ Author.validate_phone_number none = Except.ok none
    ∧ Author.validate_phone_number (some "") = Except.ok (some "") := by
  have hd : p.data ≠ [] := (str_ne_empty_iff p).mp hp
  have hdig : pyIsDigit p = true ↔ ∀ c ∈ p.data, c.isDigit := by
    unfold pyIsDigit
    rw [Bool.and_eq_true, List.all_eq_true]
    simp [hd]
  have hmt : Author.validate_phone_number (some "") = Except.ok (some "") := by
    simp [Author.validate_phone_number]
  by_cases hok : p.length = 10 ∧ ∀ c ∈ p.data, c.isDigit
  · have hcond : ¬(p ≠ "" ∧ (p.length ≠ 10 ∨ ¬ pyIsDigit p)) := by
      rintro ⟨-, h | h⟩
      · exact h hok.1
      · exact h (hdig.mpr hok.2)
    have hval : Author.validate_phone_number (some p) = Except.ok (some p) := by
      simp only [Author.validate_phone_number]
      rw [if_neg hcond]
    exact ⟨⟨fun _ => hok, fun _ => hval⟩, fun hn => absurd hok hn, rfl, hmt⟩
  · have hcond : p ≠ "" ∧ (p.length ≠ 10 ∨ ¬ pyIsDigit p) := by
      refine ⟨hp, ?_⟩
      by_cases h10 : p.length = 10
      · exact Or.inr fun hdg => hok ⟨h10, hdig.mp hdg⟩
      · exact Or.inl h10
    have hval : Author.validate_phone_number (some p) =
        Except.error "Phone number must be 10 digits." := by
      simp only [Author.validate_phone_number]
      rw [if_pos hcond]
    refine ⟨⟨fun h => ?_, fun h => absurd h hok⟩, fun _ => hval, rfl, hmt⟩
    rw [hval] at h
    exact Except.noConfusion h

/-- C2 witness: "1234567890" is accepted and "123-456-7890" is rejected. -/
theorem validate_phone_number_spec_witness :
    Author.validate_phone_number (some "1234567890") = Except.ok (some "1234567890")
    ∧ Author.validate_phone_number (some "123-456-7890") =
        Except.error "Phone number must be 10 digits." :=
  ⟨(validate_phone_number_spec "1234567890" (by decide)).1.mpr (by decide),
    (validate_phone_number_spec "123-456-7890" (by decide)).2.1 (by decide)⟩

/-- C3 counterexample: the empty string is shorter than 250 characters, yet
assigning it to `Post.content` is accepted, because the validator's guard
`if content and ...` skips falsy values. -/
theorem validate_content_empty_string_accepted :
    Post.validate_content (some "") = Except.ok (some "")
    ∧ ("" : String).length < 250 := by
  refine ⟨?_, by decide⟩
  simp [Post.validate_content]

/-- C3 amended: a non-empty string shorter than 250 characters assigned to
`Post.content` is rejected with the `ValueError` message; a string of
exactly 250 characters is accepted; absent (null) content and the empty
string are accepted. -/
theorem validate_content_spec (c : String) :
    (c ≠ "" → c.length < 250 →
      Post.validate_content (some c) =
        Except.error "Post content must be at least 250 characters long.")
    ∧ (c.length = 250 → Post.validate_content (some c) = Except.ok (some c))
    ∧ Post.validate_content none = Except.ok none
    ∧ Post.validate_content (some "") = Except.ok (some "") := by
  refine ⟨?_, ?_, rfl, by simp [Post.validate_content]⟩
  · intro hne hl
    simp only [Post.validate_content]
    rw [if_pos ⟨hne, hl⟩]
  · intro hl
    have hnc : ¬(c ≠ "" ∧ c.length < 250) := by
      rintro ⟨-, h2⟩
      omega
    simp only [Post.validate_content]
    rw [if_neg hnc]

/-- C3 witness: a 1-character content is rejected and a 250-character content
is accepted. -/
theorem validate_content_spec_witness :
    Post.validate_content (some "a") =
      Except.error "Post content must be at least 250 characters long."
    ∧ Post.validate_content (some (String.mk (List.replicate 250 'x'))) =
        Except.ok (some (String.mk (List.replicate 250 'x'))) :=
  ⟨(validate_content_spec "a").1 (by decide) (by decide),
    (validate_content_spec (String.mk (List.replicate 250 'x'))).2.1 (by
      show (List.replicate 250 'x').length = 250
      simp)⟩

/-- C4: a string longer than 250 characters assigned to `Post.summary` is
rejected with the `ValueError` message; a string of exactly 250 characters is
accepted; an absent (null) summary is accepted. -/
theorem validate_summary_spec (s : String) :
    (250 < s.length →
      Post.validate_summary (some s) =
        Except.error "Post summary must be at most 250 characters long.")
    ∧ (s.length = 250 → Post.validate_summary (some s) = Except.ok (some s))
    ∧ Post.validate_summary none = Except.ok none := by
  refine ⟨?_, ?_, rfl⟩
  · intro hl
    have hne : s ≠ "" := by
      intro he
      subst he
      exact absurd hl (by decide)
    simp only [Post.validate_summary]
    rw [if_pos ⟨hne, hl⟩]
  · intro hl
    have hnc : ¬(s ≠ "" ∧ 250 < s.length) := by
      rintro ⟨-, h2⟩
      omega
    simp only [Post.validate_summary]
    rw [if_neg hnc]

/-- C4 witness: a 251-character summary is rejected and a 250-character
summary is accepted. -/
theorem validate_summary_spec_witness :
    Post.validate_summary (some (String.mk (List.replicate 251 'x'))) =
      Except.error "Post summary must be at most 250 characters long."
    ∧ Post.validate_summary (some (String.mk (List.replicate 250 'x'))) =
        Except.ok (some (String.mk (List.replicate 250 'x'))) :=
  ⟨(validate_summary_spec (String.mk (List.replicate 251 'x'))).1 (by
      show 250 < (List.replicate 251 'x').length
      simp),
    (validate_summary_spec (String.mk (List.replicate 250 'x'))).2.1 (by
      show (List.replicate 250 'x').length = 250
      simp)⟩

/-- C5: assigning a string to `Post.title` raises the required-field
`ValueError` on the empty string and the clickbait `ValueError` when none of
the four phrases "Won't Believe", "Secret", "Top", "Guess" occurs in it as a
case-sensitive substring; otherwise the value is accepted unchanged.
"You Won't Believe This" is accepted, "An Ordinary Day" is rejected. -/
theorem validate_title_spec (t : String) :
    (t = "" → Post.validate_title (some t) = Except.error "Title field is required.")
    ∧ ((∃ p ∈ clickbait, p.data <:+: t.data) → t ≠ "" →
        Post.validate_title (some t) = Except.ok t)
    ∧ (t ≠ "" → (∀ p ∈ clickbait, ¬ p.data <:+: t.data) →
        Post.validate_title (some t) = Except.error "Title must contain clickbait phrases.")
    ∧ Post.validate_title (some "You Won't Believe This") =
        Except.ok "You Won't Believe This"
    ∧ Post.validate_title (some "An Ordinary Day") =
        Except.error "Title must contain clickbait phrases." := by
  refine ⟨?_, ?_, ?_, by decide, by decide⟩
  · intro h
    simp [Post.validate_title, h]
  · intro hex hne
    have hany : (clickbait.any fun s => pyIn s t) = true := (clickbait_any_iff t).mpr hex
    simp [Post.validate_title, hne, hany]
  · intro hne hnone
    have hany : (clickbait.any fun s => pyIn s t) = false := by
      rw [Bool.eq_false_iff, ne_eq, clickbait_any_iff]
      push_neg
      exact hnone
    simp [Post.validate_title, hne, hany]

/-- C5 witness: "Top News" contains the phrase "Top" and is accepted. -/
theorem validate_title_spec_witness :
    Post.validate_title (some "Top News") = Except.ok "Top News" :=
  (validate_title_spec "Top News").2.1 ⟨"Top", by decide, by decide⟩ (by decide)

/-- C6: assigning a value to `Post.category` raises the `ValueError` unless
the value is exactly the string "Fiction" or "Non-Fiction"; in particular an
absent (null) category is rejected too, because the membership check runs
unconditionally. -/
theorem validate_category_spec (cv : Option String) :
    (∀ s, Post.validate_category cv = Except.ok s ↔
      cv = some s ∧ (s = "Fiction" ∨ s = "Non-Fiction"))
    ∧ (cv ≠ some "Fiction" → cv ≠ some "Non-Fiction" →
        Post.validate_category cv =
          Except.error "Category must be 'Fiction' or 'Non-Fiction'.")
    ∧ Post.validate_category none =
        Except.error "Category must be 'Fiction' or 'Non-Fiction'." := by
  refine ⟨?_, ?_, rfl⟩
  · intro s
    cases cv with
    | none => simp [Post.validate_category]
    | some c =>
      by_cases hc : c = "Fiction" ∨ c = "Non-Fiction"
      · simp only [Post.validate_category]
        rw [if_pos hc]
        constructor
        · intro h
          have hcs : c = s := by simpa using h
          subst hcs
          exact ⟨rfl, hc⟩
        · rintro ⟨hsome, -⟩
          have hcs : c = s := by simpa using hsome
          rw [hcs]
      · simp only [Post.validate_category]
        rw [if_neg hc]
        constructor
        · intro h
          exact Except.noConfusion h
        · rintro ⟨hsome, hdisj⟩
          have hcs : c = s := by simpa using hsome
          subst hcs
          exact absurd hdisj hc
  · intro h1 h2
    cases cv with
    | none => rfl
    | some c =>
      have hc : ¬(c = "Fiction" ∨ c = "Non-Fiction") := by
        rintro (rfl | rfl)
        · exact h1 rfl
        · exact h2 rfl
      simp only [Post.validate_category]
      rw [if_neg hc]

/-- C6 witness: "Poetry" is rejected and "Fiction" is accepted. -/
theorem validate_category_spec_witness :
    Post.validate_category (some "Poetry") =
      Except.error "Category must be 'Fiction' or 'Non-Fiction'."
    ∧ Post.validate_category (some "Fiction") = Except.ok "Fiction" :=
  ⟨(validate_category_spec (some "Poetry")).2.1 (by decide) (by decide),
    ((validate_category_spec (some "Fiction")).1 "Fiction").mpr ⟨rfl, Or.inl rfl⟩⟩

/-- C7: when `POST /posts` succeeds, a subsequent `GET /posts/{id}` on the
assigned id returns 200 with exactly the created post, and the post's
`title`, `content`, `category` and `summary` are exactly the submitted
values; only the id (and the unmodelled timestamps) are system-assigned. The
hypothesis on ids is the autoincrement invariant: every committed row's id is
below the counter. -/
theorem create_then_get_roundtrip (st : PostsState) (d : PostData)
    (st' : PostsState) (p : Post)
    (hids : ∀ q ∈ st.posts, q.id < st.next_id)
    (h : create_post st d = Except.ok (st', p)) :
    get_post st' p.id = { status := 200, body := HttpBody.json_post p }
    ∧ d.title = some p.title
    ∧ d.content = p.content
    ∧ d.category = some p.category
    ∧ d.summary = p.summary := by
  obtain ⟨ht, hc, hcat, hs, hid, hrows, -⟩ := create_post_ok st d st' p h
  have hq : Post.query_get st'.posts p.id = some p := by
    rw [hrows]
    refine query_get_append_fresh st.posts p fun q hqm => ?_
    rw [hid]
    exact Nat.ne_of_lt (hids q hqm)
  refine ⟨?_, validate_title_ok d.title p.title ht,
    (validate_content_ok d.content p.content hc).symm,
    validate_category_ok d.category p.category hcat,
    (validate_summary_ok d.summary p.summary hs).symm⟩
  unfold get_post
  rw [hq]

/-- C7 witness: creating a post on the empty store and fetching its id
returns it with the submitted fields. -/
theorem create_then_get_roundtrip_witness :
    get_post ⟨[⟨1, "Top 10 Lists", none, "Fiction", none⟩], 2⟩ 1 =
      { status := 200,
        body := HttpBody.json_post ⟨1, "Top 10 Lists", none, "Fiction", none⟩ } :=
  (create_then_get_roundtrip ⟨[], 1⟩ ⟨some "Top 10 Lists", none, some "Fiction", none⟩
    ⟨[⟨1, "Top 10 Lists", none, "Fiction", none⟩], 2⟩
    ⟨1, "Top 10 Lists", none, "Fiction", none⟩ (by simp) (by decide)).1

/-- C8: for an id with no persisted post, `GET /posts/{id}` returns 404 with
body `{'error': 'Post not found'}`, and `PATCH /posts/{id}` likewise returns
404; the store is unchanged in both cases. -/
theorem missing_post_404 (st : PostsState) (i : Nat) (d : List PatchField)
    (h : Post.query_get st.posts i = none) :
    get_post st i = { status := 404, body := HttpBody.json_error "Post not found" }
    ∧ update_post st i d =
        Except.ok (st, { status := 404, body := HttpBody.json_error "Post not found" }) := by
  constructor
  · unfold get_post
    rw [h]
  · unfold update_post
    rw [h]

/-- C8 witness: GET and PATCH on id 7 of the empty store both return the 404
error response and leave the store as it was. -/
theorem missing_post_404_witness :
    get_post ⟨[], 1⟩ 7 = { status := 404, body := HttpBody.json_error "Post not found" }
    ∧ update_post ⟨[], 1⟩ 7 [] =
        Except.ok (⟨[], 1⟩, { status := 404, body := HttpBody.json_error "Post not found" }) :=
  missing_post_404 ⟨[], 1⟩ 7 [] rfl

/-- C9: `DELETE /posts/{id}` always returns 204 with an empty body; the
resulting store holds exactly the rows whose id differs from the path id, so
an existing post is removed and a missing id leaves the store unchanged. -/
theorem delete_post_spec (st : PostsState) (i : Nat) :
    (delete_post st i).2 = { status := 204, body := HttpBody.empty }
    ∧ (delete_post st i).1.posts = (st.posts.filter fun q => !(q.id == i))
    ∧ (Post.query_get st.posts i = none →
        delete_post st i = (st, { status := 204, body := HttpBody.empty })) := by
  cases hq : Post.query_get st.posts i with
  | none =>
    have hall : ∀ q ∈ st.posts, q.id ≠ i := (query_get_eq_none_iff st.posts i).mp hq
    have hfilter : (st.posts.filter fun q => !(q.id == i)) = st.posts := by
      rw [List.filter_eq_self]
      intro a ha
      simpa using hall a ha
    simp only [delete_post, hq]
    exact ⟨trivial, hfilter.symm, fun _ => trivial⟩
  | some p =>
    simp only [delete_post, hq]
    exact ⟨trivial, trivial, fun h => Option.noConfusion h⟩

/-- C9 witness: deleting id 3 from a store that does not hold it returns 204
with an empty body and leaves the store unchanged. -/
theorem delete_post_spec_witness :
    delete_post ⟨[⟨1, "Top 10 Lists", none, "Fiction", none⟩], 2⟩ 3 =
      (⟨[⟨1, "Top 10 Lists", none, "Fiction", none⟩], 2⟩,
        { status := 204, body := HttpBody.empty }) :=
  (delete_post_spec ⟨[⟨1, "Top 10 Lists", none, "Fiction", none⟩], 2⟩ 3).2.2 rfl

/-- C10: for an author already committed with a nonempty name, assigning that
same name again — including re-assigning the author's own unchanged name —
raises `ValueError("Name must be unique.")`, because the uniqueness lookup
matches any persisted author with that name, the author being updated
included. -/
theorem author_name_reassignment_rejected (S : List Author) (a : Author)
    (ha : a ∈ S) (hne : a.name ≠ "") :
    Author.validate_name S (some a.name) = Except.error "Name must be unique." :=
  validate_name_dup S a.name hne ⟨a, ha, rfl⟩

/-- C10 witness: re-assigning "Alice" to the persisted author already named
"Alice" raises the uniqueness error. -/
theorem author_name_reassignment_rejected_witness :
    Author.validate_name [⟨1, "Alice", none⟩] (some "Alice") =
      Except.error "Name must be unique." :=
  author_name_reassignment_rejected [⟨1, "Alice", none⟩] ⟨1, "Alice", none⟩
    (by simp) (by decide)
